import Mathlib

/-!
Verification development for the document-verification repository.

The source is a JavaScript identity-verification pipeline
(src/services/verificationService.js together with the S3 download,
Textract text-extraction and Rekognition face-comparison services).
Strings are modelled as lists of characters; JavaScript string
operations (includes, toLowerCase, replace of whitespace or slashes,
split) are embedded as executable Lean functions on those lists.
External AWS calls are modelled as oracles: each call site receives the
outcome the remote service would have produced, and the pipeline is a
pure function of those outcomes.
-/

namespace DocVerify

/-- A JavaScript string, modelled as its list of characters. -/
abbrev Str := List Char

/-- JS String.prototype.includes: the pattern occurs as a contiguous
substring of the receiver. -/
def jsIncludes (s pat : Str) : Bool := decide (pat <:+: s)

/-- JS String.prototype.toLowerCase, restricted to the basic latin
letters handled by Char.toLower. -/
def toLowerStr (s : Str) : Str := s.map Char.toLower

/-- JS String.prototype.toUpperCase, restricted to the basic latin
letters handled by Char.toUpper. -/
def toUpperStr (s : Str) : Str := s.map Char.toUpper

/-- The character class of the JS regex \s (whitespace). -/
def jsWhitespace (c : Char) : Bool :=
  c = ' ' || c = '\t' || c = '\n' || c = '\r' || c = '\u000b' || c = '\u000c' ||
  c = '\u00a0' || c = '\u1680' || (0x2000 ≤ c.toNat && c.toNat ≤ 0x200a) ||
  c = '\u2028' || c = '\u2029' || c = '\u202f' || c = '\u205f' ||
  c = '\u3000' || c = '\ufeff'

/-- JS s.replace of the regex matching whitespace runs by the empty
string: removing every whitespace character. -/
def stripWs (s : Str) : Str := s.filter (fun c => !jsWhitespace c)

/-- JS s.split of the separator "/" into segments. -/
def splitOnSlash : Str → List Str
  | [] => [[]]
  | c :: rest =>
    match splitOnSlash rest with
    | [] => [[]]
    | seg :: segs => if c = '/' then [] :: seg :: segs else (c :: seg) :: segs

/-- JS Array.prototype.join with a separator. -/
def joinWith (sep : Str) : List Str → Str
  | [] => []
  | [s] => s
  | s :: rest => s ++ sep ++ joinWith sep rest

/-- JS s.replace of the global regex matching a slash by a dash. -/
def replaceSlashDash (s : Str) : Str := s.map (fun c => if c = '/' then '-' else c)

/-- JS s.replace of the global regex matching a slash by the empty string. -/
def removeSlashes (s : Str) : Str := s.filter (fun c => !(c = '/'))

/-- Embeds VerificationService._validateDocumentType (the variant that
accepts both the aadhaar and the legacy aadhar spelling). -/
def validateDocumentType (extractedText : Str) (documentType : String) : Bool :=
  if documentType = "aadhaar" ∨ documentType = "aadhar" then
    jsIncludes extractedText ("unique identification authority".data)
  else if documentType = "passport" then
    jsIncludes extractedText ("republic of india".data)
  else if documentType = "other" then
    true
  else
    false

/-- Embeds VerificationService._matchName. -/
def matchName (extractedText name : Str) : Bool :=
  jsIncludes extractedText (toLowerStr name)

/-- The list of date representations built by
VerificationService._matchDOB from a DD/MM/YYYY input string. -/
def dateFormats (dob : Str) : List Str :=
  [dob,
   replaceSlashDash dob,
   joinWith ['-'] (splitOnSlash dob).reverse,
   joinWith ['/'] (splitOnSlash dob).reverse,
   removeSlashes dob,
   joinWith [] (splitOnSlash dob).reverse]

/-- Embeds VerificationService._matchDOB on a DD/MM/YYYY string input:
the date is expanded into six representations and any of them is
searched in the corpus. -/
def matchDOB (extractedText dob : Str) : Bool :=
  (dateFormats dob).any (fun format => jsIncludes extractedText (toLowerStr format))

/-- Embeds VerificationService._validateAadhaarFormat: strip whitespace,
then test the regex matching exactly 12 digits. -/
def validateAadhaarFormat (aadhaarNumber : Str) : Bool :=
  let cleaned := stripWs aadhaarNumber
  cleaned.length == 12 && cleaned.all Char.isDigit

/-- The character class of the JS regex [A-Z0-9]. -/
def isPassportChar (c : Char) : Bool :=
  (65 ≤ c.toNat && c.toNat ≤ 90) || c.isDigit

/-- Embeds VerificationService._validatePassportFormat: strip whitespace,
upper-case, then test the regex matching 8 to 9 characters of [A-Z0-9]. -/
def validatePassportFormat (passportNumber : Str) : Bool :=
  let cleaned := toUpperStr (stripWs passportNumber)
  (cleaned.length == 8 || cleaned.length == 9) && cleaned.all isPassportChar

/-- Embeds VerificationService._validateIdentityCardNumberFormat. -/
def validateIdentityCardNumberFormat (identityCardNumber : Str) (idType : String) : Bool :=
  if idType = "aadhaar" then validateAadhaarFormat identityCardNumber
  else if idType = "passport" then validatePassportFormat identityCardNumber
  else true

/-- Embeds VerificationService._matchIdentityCardNumber: match either the
whitespace-stripped lowercased number against the whitespace-stripped
corpus, or the raw lowercased number against the raw corpus. -/
def matchIdentityCardNumber (extractedText identityCardNumber : Str) : Bool :=
  let cardNumberLower := stripWs (toLowerStr identityCardNumber)
  let extractedTextNormalized := stripWs extractedText
  jsIncludes extractedTextNormalized cardNumberLower ||
    jsIncludes extractedText (toLowerStr identityCardNumber)

/-- Embeds VerificationService._determineVerificationStatus. The
JavaScript strict comparisons to true of the possibly-undefined flags
are embedded as equality with some true on Option Bool. -/
def determineVerificationStatus
    (isDocumentTypeMatched isNameMatched : Bool)
    (isDOBMatched isIdentityCardNumberMatched : Option Bool)
    (isFaceMatched : Bool) (type : String) : Bool :=
  if !isDocumentTypeMatched || !isNameMatched || !isFaceMatched then false
  else if type = "aadhar" ∨ type = "passport" then
    (isDOBMatched == some true) && (isIdentityCardNumberMatched == some true)
  else true

/-- Embeds VerificationService._buildMessage. The JavaScript strict
comparisons to false are embedded as equality with some false. -/
def buildMessage (isNameMatched : Bool)
    (isDOBMatched isIdentityCardNumberMatched : Option Bool)
    (isFaceMatched : Bool) (type : String) : String :=
  let issues : List String :=
    (if !isNameMatched then ["name"] else []) ++
    (if type = "aadhar" ∨ type = "passport" then
      (if isDOBMatched == some false then ["DOB"] else []) ++
      (if isIdentityCardNumberMatched == some false then ["identity card number"] else [])
     else []) ++
    (if !isFaceMatched then ["face"] else [])
  if issues.isEmpty then "Verification complete"
  else String.intercalate ", " issues ++ " did not match, but verification continued"

/-- The value of a face comparison: the pair returned by
AWSRekognitionService.compareFaces and compareFacesWithIdentity. -/
structure FaceRes where
  isFaceMatched : Bool
  confidence : ℚ
deriving DecidableEq

deriving instance DecidableEq for Except

/-- One identity image considered by
AWSRekognitionService.compareFacesWithIdentity, together with the
outcomes its two AWS calls would produce: the number of FaceDetails
returned by detectFaces (or a thrown error), and the result of
compareFaces against the source photo (or a thrown error). -/
structure Candidate where
  detect : Except String Nat
  compare : Except String FaceRes
deriving DecidableEq

/-- Embeds the candidate loop of
AWSRekognitionService.compareFacesWithIdentity: in input order, detect a
face, then compare; return the first comparison that matched; treat an
error on either call as no match for that candidate and continue; after
the list is exhausted return no match with confidence 0. -/
def compareFacesWithIdentity : List Candidate → FaceRes
  | [] => ⟨false, 0⟩
  | c :: rest =>
    match c.detect with
    | .error _ => compareFacesWithIdentity rest
    | .ok n =>
      if 0 < n then
        match c.compare with
        | .error _ => compareFacesWithIdentity rest
        | .ok r => if r.isFaceMatched then r else compareFacesWithIdentity rest
      else compareFacesWithIdentity rest

/-- A candidate on which the loop body of compareFacesWithIdentity
succeeds: detection returned at least one face and the comparison
returned a match. -/
def candidateMatches (c : Candidate) : Bool :=
  match c.detect, c.compare with
  | .ok n, .ok r => (0 < n) && r.isFaceMatched
  | _, _ => false

/-- The comparison result a candidate would contribute if it is the
first match. -/
def compareValue (c : Candidate) : FaceRes :=
  match c.compare with
  | .ok r => r
  | .error _ => ⟨false, 0⟩

/-- Embeds AWSTextractService.extractTextFromFile, with the AWS call
modelled by its outcome: the list of LINE block texts the service
returned, or a thrown error. The block texts are joined with spaces and
lowercased; an error is rethrown. -/
def extractTextFromFile (blocks : Except String (List Str)) : Except String Str :=
  match blocks with
  | .error e => .error e
  | .ok bs => .ok (toLowerStr (joinWith [' '] bs))

/-- Embeds AWSTextractService.extractText over a batch of files, each
modelled by the outcome of its per-file AWS call: a per-file failure
contributes the empty string, and the per-file texts are joined with
spaces and lowercased. -/
def extractText (files : List (Except String (List Str))) : Str :=
  let extractedTexts := files.map (fun f =>
    match extractTextFromFile f with
    | .ok t => t
    | .error _ => [])
  toLowerStr (joinWith [' '] extractedTexts)

/-- The contribution of one file to the combined corpus: its extracted
text, or the empty string when its extraction failed. -/
def perHandleText (f : Except String (List Str)) : Str :=
  match extractTextFromFile f with
  | .ok t => t
  | .error _ => []

/-- A local file path produced by a download service. -/
abbrev LocalPath := String

/-- The request fields consumed by VerificationService.verifyIdentity.
Optional request fields are Option values; the JavaScript falsiness test
on a present field additionally treats the empty string as missing. -/
structure Request where
  name : Str
  dob : Option Str
  identityCardNumber : Option Str
  type : String
deriving DecidableEq

/-- The outcomes of the external calls made by one run of
VerificationService.verifyIdentity: the photo download (which rethrows
its error), the per-URL identity downloads (a failed one yields null and
is dropped), the text extraction over the identity files, and the face
comparison. -/
structure Env where
  photoDownload : Except String LocalPath
  identityDownload : List (Option LocalPath)
  extractResult : Except String Str
  faceResult : Except String FaceRes
deriving DecidableEq

/-- The full result object assembled by VerificationService.verifyIdentity
when the document-type gate passes. -/
structure FullResult where
  isDocumentTypeMatched : Bool
  isNameMatched : Bool
  isDOBMatched : Option Bool
  isIdentityCardNumberMatched : Option Bool
  isIdentityCardNumberFormatValid : Option Bool
  isFaceMatched : Bool
  confidence : ℚ
  isVerification : Bool
  message : String
deriving DecidableEq

/-- The two response shapes of VerificationService.verifyIdentity: the
narrow object carrying only isDocumentTypeMatched false and a message
(returned when the document-type gate fails), and the full object. -/
inductive VerifyResult where
  | narrow (message : String)
  | full (r : FullResult)
deriving DecidableEq

/-- One run of VerificationService.verifyIdentity: its returned value or
thrown error, the local files its download phase wrote to disk, and the
arguments of every file deletion it performed (deleteFiles calls
flattened, in order). -/
structure PipeOut where
  result : Except String VerifyResult
  createdFiles : List LocalPath
  deletedFiles : List LocalPath
deriving DecidableEq

/-- The JavaScript falsiness test on a possibly-undefined string field. -/
def isFalsy : Option Str → Bool
  | none => true
  | some s => s.isEmpty

/-- Embeds VerificationService.verifyIdentity (the variant that accepts
both aadhaar spellings and records isIdentityCardNumberFormatValid).
Phase 0 runs the photo download and the identity downloads concurrently:
if the photo download rethrows, the identity files that were written are
never recorded in downloadedFiles, and the finally block skips its
cleanup because the list is empty. On the gate-failure path deleteFiles
runs once before the return and once more in the finally block. -/
def verifyIdentity (env : Env) (req : Request) : PipeOut :=
  let identityFilePaths := env.identityDownload.filterMap id
  let created :=
    (match env.photoDownload with
     | .ok p => [p]
     | .error _ => []) ++ identityFilePaths
  match env.photoDownload with
  | .error e => ⟨.error e, created, []⟩
  | .ok photoFilePath =>
    let downloadedFiles := photoFilePath :: identityFilePaths
    match env.extractResult with
    | .error e => ⟨.error e, created, downloadedFiles⟩
    | .ok extractedText =>
      let isDocumentTypeMatched := validateDocumentType extractedText req.type
      if !isDocumentTypeMatched then
        ⟨.ok (.narrow (if req.type = "aadhaar" ∨ req.type = "aadhar" then
            "aadhaar not found" else "passport not found")),
         created, downloadedFiles ++ downloadedFiles⟩
      else
        let isNameMatched := matchName extractedText req.name
        let idTyped := req.type = "aadhaar" ∨ req.type = "aadhar" ∨ req.type = "passport"
        let cardFlags : Option Bool × Option Bool :=
          if idTyped then
            if isFalsy req.identityCardNumber then (some false, some false)
            else
              let icn := req.identityCardNumber.getD []
              let fmt := validateIdentityCardNumberFormat icn req.type
              if !fmt then (some false, some false)
              else (some true, some (matchIdentityCardNumber extractedText icn))
          else (none, none)
        let isDOBMatched : Option Bool :=
          if idTyped then
            if isFalsy req.dob then some false
            else some (matchDOB extractedText (req.dob.getD []))
          else none
        match env.faceResult with
        | .error e => ⟨.error e, created, downloadedFiles⟩
        | .ok faceResult =>
          let isVerification := determineVerificationStatus isDocumentTypeMatched
            isNameMatched isDOBMatched cardFlags.2 faceResult.isFaceMatched req.type
          let message := buildMessage isNameMatched isDOBMatched cardFlags.2
            faceResult.isFaceMatched req.type
          ⟨.ok (.full ⟨isDocumentTypeMatched, isNameMatched, isDOBMatched,
              cardFlags.2, cardFlags.1, faceResult.isFaceMatched,
              faceResult.confidence, isVerification, message⟩),
           created, downloadedFiles⟩

example : jsIncludes ("hello world".data) ("lo wo".data) = true := by decide
example : stripWs ("1234 5678 9012".data) = ("123456789012".data) := by decide
example : validateAadhaarFormat ("1234 5678 9012".data) = true := by decide
example : validateAadhaarFormat ("12345".data) = false := by decide
example : validatePassportFormat ("P1234567".data) = true := by decide
example : validatePassportFormat ("P123".data) = false := by decide
example : matchDOB ("born 1995-06-15 x".data) ("15/06/1995".data) = true := by decide
example : matchDOB ("born 1995 06 15".data) ("15/06/1995".data) = false := by decide
example : buildMessage true (some false) (some true) true "aadhar" =
    "DOB did not match, but verification continued" := by decide

theorem jsIncludes_iff {s pat : Str} : jsIncludes s pat = true ↔ pat <:+: s := by
  simp [jsIncludes]

theorem isInfix_filter (p : Char → Bool) {l₁ l₂ : Str} (h : l₁ <:+: l₂) :
    l₁.filter p <:+: l₂.filter p := by
  obtain ⟨s, t, rfl⟩ := h
  exact ⟨s.filter p, t.filter p, by simp [List.filter_append]⟩

theorem toNat_ofNat_valid {n : Nat} (h : n.isValidChar) : (Char.ofNat n).toNat = n := by
  simp [Char.ofNat, dif_pos h, Char.ofNatAux, Char.toNat, UInt32.toNat]

theorem toLower_eq_self_of_toNat_lt {c : Char} (h : c.toNat < 65) : c.toLower = c := by
  unfold Char.toLower
  rw [if_neg]
  omega

theorem isDigit_toNat_le {c : Char} (h : c.isDigit = true) : c.toNat ≤ 57 := by
  simp only [Char.isDigit, Bool.and_eq_true, decide_eq_true_eq] at h
  obtain ⟨_, h2⟩ := h
  have := UInt32.le_def.mp h2
  simpa [Char.toNat] using this

theorem toLower_eq_self_of_isDigit {c : Char} (h : c.isDigit = true) : c.toLower = c :=
  toLower_eq_self_of_toNat_lt (Nat.lt_of_le_of_lt (isDigit_toNat_le h) (by omega))

theorem toLower_toLower (c : Char) : Char.toLower (Char.toLower c) = Char.toLower c := by
  by_cases h : c.toNat ≥ 65 ∧ c.toNat ≤ 90
  · have h1 : Char.toLower c = Char.ofNat (c.toNat + 32) := by
      unfold Char.toLower
      rw [if_pos h]
    have hv : (c.toNat + 32).isValidChar := Or.inl (by omega)
    have ht : (Char.ofNat (c.toNat + 32)).toNat = c.toNat + 32 := toNat_ofNat_valid hv
    rw [h1]
    unfold Char.toLower
    rw [if_neg]
    rw [ht]
    omega
  · have h1 : Char.toLower c = c := by
      unfold Char.toLower
      rw [if_neg h]
    rw [h1, h1]

/-- C10: in identity-card-number matching the whitespace-stripped
comparison subsumes the raw one: whenever the raw lowercased number is a
substring of the corpus, the stripped lowercased number is a substring
of the stripped corpus, so the disjunction computed by
matchIdentityCardNumber equals its first disjunct alone. -/
theorem C10_stripped_subsumes_raw :
    ∀ extractedText identityCardNumber : Str,
      (jsIncludes extractedText (toLowerStr identityCardNumber) = true →
        jsIncludes (stripWs extractedText) (stripWs (toLowerStr identityCardNumber)) = true)
      ∧ matchIdentityCardNumber extractedText identityCardNumber =
          jsIncludes (stripWs extractedText) (stripWs (toLowerStr identityCardNumber)) := by
  intro t card
  have himp : jsIncludes t (toLowerStr card) = true →
      jsIncludes (stripWs t) (stripWs (toLowerStr card)) = true := by
    intro h
    rw [jsIncludes_iff] at h ⊢
    exact isInfix_filter _ h
  refine ⟨himp, ?_⟩
  simp only [matchIdentityCardNumber]
  cases hr : jsIncludes t (toLowerStr card) with
  | false => simp
  | true => simp [himp hr]

/-- C10 witness: a concrete corpus and card number on which the raw
lowercased number occurs, instantiating the subsumption. -/
theorem C10_stripped_subsumes_raw_witness :
    jsIncludes (stripWs ("ab 12 cd".data)) (stripWs (toLowerStr ("B 1".data))) = true :=
  (C10_stripped_subsumes_raw ("ab 12 cd".data) ("B 1".data)).1 (by decide)

/-- C3: the document-type gate accepts aadhaar and the legacy aadhar
spelling exactly when the corpus contains the literal phrase about the
unique identification authority, passport exactly when it contains the
republic-of-india phrase, other always, and every unknown type never;
and on gate failure the pipeline returns only the narrow object with the
type-specific message, independently of the face-comparison oracle, so
field matching and face verification are never executed. -/
theorem C3_document_type_gate :
    (∀ corpus : Str,
      validateDocumentType corpus "aadhaar" =
          jsIncludes corpus ("unique identification authority".data)
      ∧ validateDocumentType corpus "aadhar" =
          jsIncludes corpus ("unique identification authority".data)
      ∧ validateDocumentType corpus "passport" =
          jsIncludes corpus ("republic of india".data)
      ∧ validateDocumentType corpus "other" = true)
    ∧ (∀ (corpus : Str) (t : String),
        t ≠ "aadhaar" → t ≠ "aadhar" → t ≠ "passport" → t ≠ "other" →
        validateDocumentType corpus t = false)
    ∧ (∀ (p : LocalPath) (ids : List (Option LocalPath)) (corpus : Str)
        (face : Except String FaceRes) (req : Request),
        validateDocumentType corpus req.type = false →
        (verifyIdentity ⟨.ok p, ids, .ok corpus, face⟩ req).result =
          .ok (.narrow (if req.type = "aadhaar" ∨ req.type = "aadhar" then
            "aadhaar not found" else "passport not found"))) := by
  refine ⟨?_, ?_, ?_⟩
  · intro corpus
    refine ⟨?_, ?_, ?_, ?_⟩ <;> simp [validateDocumentType]
  · intro corpus t h1 h2 h3 h4
    simp [validateDocumentType, h1, h2, h3, h4]
  · intro p ids corpus face req hgate
    simp [verifyIdentity, hgate]

/-- C3 witness: a passport request over a corpus lacking the passport
phrase yields the narrow passport-not-found object. -/
theorem C3_document_type_gate_witness :
    (verifyIdentity ⟨.ok "photo.jpg", [some "id0.jpg"], .ok ("hello world".data),
        .ok ⟨true, 99⟩⟩ ⟨"john".data, none, none, "passport"⟩).result =
      .ok (.narrow "passport not found") := by
  have h := C3_document_type_gate.2.2 "photo.jpg" [some "id0.jpg"] ("hello world".data)
    (.ok ⟨true, 99⟩) ⟨"john".data, none, none, "passport"⟩ (by decide)
  simpa using h

/-- C5: aadhaar format validation accepts exactly the numbers whose
whitespace-stripped form is 12 digits, passport format validation
accepts exactly the numbers whose whitespace-stripped upper-cased form
is 8 to 9 characters of A-Z or 0-9, and in the pipeline an invalid
format forces isIdentityCardNumberMatched to some false for every
corpus, without any corpus substring search. -/
theorem C5_identity_number_format :
    (∀ n : Str, validateAadhaarFormat n = true ↔
      ((stripWs n).length = 12 ∧ ∀ c ∈ stripWs n, c.isDigit = true))
    ∧ (∀ n : Str, validatePassportFormat n = true ↔
      (((toUpperStr (stripWs n)).length = 8 ∨ (toUpperStr (stripWs n)).length = 9)
        ∧ ∀ c ∈ toUpperStr (stripWs n), ((65 ≤ c.toNat ∧ c.toNat ≤ 90) ∨ c.isDigit = true)))
    ∧ (∀ (p : LocalPath) (ids : List (Option LocalPath)) (corpus : Str) (face : FaceRes)
        (nm : Str) (db : Option Str) (icn : Str) (ty : String),
        ty = "aadhaar" ∨ ty = "passport" →
        icn.isEmpty = false →
        validateIdentityCardNumberFormat icn ty = false →
        validateDocumentType corpus ty = true →
        ∃ r : FullResult,
          (verifyIdentity ⟨.ok p, ids, .ok corpus, .ok face⟩ ⟨nm, db, some icn, ty⟩).result
            = .ok (.full r)
          ∧ r.isIdentityCardNumberMatched = some false
          ∧ r.isIdentityCardNumberFormatValid = some false) := by
  refine ⟨?_, ?_, ?_⟩
  · intro n
    simp [validateAadhaarFormat, List.all_eq_true]
  · intro n
    simp [validatePassportFormat, List.all_eq_true, isPassportChar,
      Bool.or_eq_true, Bool.and_eq_true]
  · intro p ids corpus face nm db icn ty hty hicn hfmt hgate
    rcases hty with h | h <;> subst h <;>
      simp [verifyIdentity, hgate, isFalsy, hicn, hfmt]

/-- C5 witness: the five-digit number 12345 is rejected by the aadhaar
format check and forces the matched flag to some false even though the
corpus contains the number. -/
theorem C5_identity_number_format_witness :
    ∃ r : FullResult,
      (verifyIdentity ⟨.ok "photo.jpg", [some "id0.jpg"],
          .ok ("unique identification authority 12345".data), .ok ⟨true, 90⟩⟩
        ⟨"john".data, none, some ("12345".data), "aadhaar"⟩).result = .ok (.full r)
      ∧ r.isIdentityCardNumberMatched = some false
      ∧ r.isIdentityCardNumberFormatValid = some false :=
  C5_identity_number_format.2.2 "photo.jpg" [some "id0.jpg"]
    ("unique identification authority 12345".data) ⟨true, 90⟩ "john".data none
    ("12345".data) "aadhaar" (Or.inl rfl) (by decide) (by decide) (by decide)

theorem face_skip (c : Candidate) (rest : List Candidate)
    (h : candidateMatches c = false) :
    compareFacesWithIdentity (c :: rest) = compareFacesWithIdentity rest := by
  cases hd : c.detect with
  | error e => simp [compareFacesWithIdentity, hd]
  | ok n =>
    by_cases hn : 0 < n
    · cases hc : c.compare with
      | error e => simp [compareFacesWithIdentity, hd, hn, hc]
      | ok r =>
        have hr : r.isFaceMatched = false := by
          simpa [candidateMatches, hd, hc, hn] using h
        simp [compareFacesWithIdentity, hd, hn, hc, hr]
    · simp [compareFacesWithIdentity, hd, hn]

theorem face_first (pre : List Candidate) (c : Candidate) (suf : List Candidate)
    (hpre : ∀ d ∈ pre, candidateMatches d = false) (hc : candidateMatches c = true) :
    compareFacesWithIdentity (pre ++ c :: suf) = compareValue c := by
  induction pre with
  | nil =>
    cases hd : c.detect with
    | error e => simp [candidateMatches, hd] at hc
    | ok n =>
      cases hcm : c.compare with
      | error e => simp [candidateMatches, hd, hcm] at hc
      | ok r =>
        simp only [candidateMatches, hd, hcm, Bool.and_eq_true, decide_eq_true_eq] at hc
        obtain ⟨hn, hr⟩ := hc
        simp [compareFacesWithIdentity, hd, hn, hcm, hr, compareValue]
  | cons d pre ih =>
    have hd : candidateMatches d = false := hpre d (List.mem_cons_self d pre)
    rw [List.cons_append, face_skip d _ hd]
    exact ih (fun e he => hpre e (List.mem_cons_of_mem d he))

theorem face_exhaust (cands : List Candidate) :
    compareFacesWithIdentity cands = ⟨false, 0⟩ ↔
      ∀ c ∈ cands, candidateMatches c = false := by
  induction cands with
  | nil => simp [compareFacesWithIdentity]
  | cons c rest ih =>
    by_cases hc : candidateMatches c = true
    · have hres : compareFacesWithIdentity (c :: rest) = compareValue c :=
        face_first [] c rest (by simp) hc
      have hr : (compareValue c).isFaceMatched = true := by
        cases hd : c.detect with
        | error e => simp [candidateMatches, hd] at hc
        | ok n =>
          cases hcm : c.compare with
          | error e => simp [candidateMatches, hd, hcm] at hc
          | ok r =>
            simp only [candidateMatches, hd, hcm, Bool.and_eq_true, decide_eq_true_eq] at hc
            simp [compareValue, hcm, hc.2]
      constructor
      · intro habs
        rw [hres] at habs
        rw [habs] at hr
        simp at hr
      · intro hall
        exact absurd (hall c (List.mem_cons_self c rest)) (by simp [hc])
    · have hcf : candidateMatches c = false := by simpa using hc
      rw [face_skip c rest hcf, ih]
      constructor
      · intro hall d hd
        rcases List.mem_cons.mp hd with rfl | hmem
        · exact hcf
        · exact hall d hmem
      · intro hall d hd
        exact hall d (List.mem_cons_of_mem c hd)

/-- C6: the face-comparison loop scans candidates in input order,
detecting then comparing; a candidate that errors or does not match is
skipped; the first matching candidate determines the returned result,
independently of every later candidate; and the no-match result with
confidence 0 is returned exactly when no candidate in the list matches. -/
theorem C6_face_first_match :
    (∀ (c : Candidate) (rest : List Candidate), candidateMatches c = false →
      compareFacesWithIdentity (c :: rest) = compareFacesWithIdentity rest)
    ∧ (∀ (pre : List Candidate) (c : Candidate) (suf : List Candidate),
        (∀ d ∈ pre, candidateMatches d = false) → candidateMatches c = true →
        compareFacesWithIdentity (pre ++ c :: suf) = compareValue c)
    ∧ (∀ cands : List Candidate,
        compareFacesWithIdentity cands = ⟨false, 0⟩ ↔
          ∀ c ∈ cands, candidateMatches c = false) :=
  ⟨face_skip, face_first, face_exhaust⟩

/-- C6 witness: with three candidates of which only the second matches,
the loop returns the second candidate's comparison result; the third
candidate here carries an error outcome that is never consulted. -/
theorem C6_face_first_match_witness :
    compareFacesWithIdentity
      [⟨.ok 1, .ok ⟨false, 10⟩⟩, ⟨.ok 1, .ok ⟨true, 95⟩⟩, ⟨.error "boom", .error "boom"⟩]
      = ⟨true, 95⟩ := by
  have h := C6_face_first_match.2.1 [⟨.ok 1, .ok ⟨false, 10⟩⟩] ⟨.ok 1, .ok ⟨true, 95⟩⟩
    [⟨.error "boom", .error "boom"⟩] (by decide) (by decide)
  simpa [compareValue] using h

theorem toLowerStr_append (a b : Str) :
    toLowerStr (a ++ b) = toLowerStr a ++ toLowerStr b := by
  simp [toLowerStr]

theorem toLowerStr_joinWith_space (ts : List Str) :
    toLowerStr (joinWith [' '] ts) = joinWith [' '] (ts.map toLowerStr) := by
  induction ts with
  | nil => rfl
  | cons s rest ih =>
    cases rest with
    | nil => rfl
    | cons t ts2 =>
      have hj : joinWith [' '] (s :: t :: ts2) = s ++ [' '] ++ joinWith [' '] (t :: ts2) := rfl
      rw [hj, toLowerStr_append, toLowerStr_append, ih]
      rfl

theorem toLowerStr_idem (s : Str) : toLowerStr (toLowerStr s) = toLowerStr s := by
  simp only [toLowerStr, List.map_map]
  exact List.map_congr_left (fun c _ => toLower_toLower c)

/-- C7: the batch text extraction returns the space-joined concatenation
of the per-handle extracted texts in input order, already lowercase, and
a handle whose extraction failed contributes the empty string instead of
aborting the batch. -/
theorem C7_extract_text_batch :
    (∀ files : List (Except String (List Str)),
      extractText files = joinWith [' '] (files.map perHandleText))
    ∧ (∀ e : String, perHandleText (.error e) = [])
    ∧ (∀ bs : List Str, perHandleText (.ok bs) = toLowerStr (joinWith [' '] bs)) := by
  refine ⟨?_, fun e => rfl, fun bs => rfl⟩
  intro files
  show toLowerStr (joinWith [' '] (files.map perHandleText)) = _
  rw [toLowerStr_joinWith_space]
  congr 1
  rw [List.map_map]
  apply List.map_congr_left
  intro f _
  cases f with
  | error e => rfl
  | ok bs =>
    show toLowerStr (perHandleText (.ok bs)) = perHandleText (.ok bs)
    rw [show perHandleText (.ok bs) = toLowerStr (joinWith [' '] bs) from rfl]
    exact toLowerStr_idem _

theorem splitOnSlash_cons (c : Char) (rest : Str) :
    splitOnSlash (c :: rest) =
      match splitOnSlash rest with
      | [] => [[]]
      | seg :: segs => if c = '/' then [] :: seg :: segs else (c :: seg) :: segs := rfl

theorem splitOnSlash_ne_nil (s : Str) : splitOnSlash s ≠ [] := by
  cases s with
  | nil => simp [splitOnSlash]
  | cons c rest =>
    rw [splitOnSlash_cons]
    cases h : splitOnSlash rest with
    | nil => simp
    | cons seg segs => by_cases hc : c = '/' <;> simp [hc]

theorem splitOnSlash_no_slash {a : Str} (h : ∀ c ∈ a, c ≠ '/') :
    splitOnSlash a = [a] := by
  induction a with
  | nil => rfl
  | cons c rest ih =>
    have hc : c ≠ '/' := h c (List.mem_cons_self c rest)
    have hr : splitOnSlash rest = [rest] :=
      ih (fun d hd => h d (List.mem_cons_of_mem c hd))
    simp [splitOnSlash_cons, hr, hc]

theorem splitOnSlash_append {a : Str} (h : ∀ c ∈ a, c ≠ '/') (r : Str) :
    splitOnSlash (a ++ '/' :: r) = a :: splitOnSlash r := by
  induction a with
  | nil =>
    show splitOnSlash ('/' :: r) = [] :: splitOnSlash r
    rw [splitOnSlash_cons]
    cases hr : splitOnSlash r with
    | nil => exact absurd hr (splitOnSlash_ne_nil r)
    | cons seg segs => simp
  | cons c rest ih =>
    have hc : c ≠ '/' := h c (List.mem_cons_self c rest)
    have hr : splitOnSlash (rest ++ '/' :: r) = rest :: splitOnSlash r :=
      ih (fun d hd => h d (List.mem_cons_of_mem c hd))
    rw [List.cons_append, splitOnSlash_cons, hr]
    simp [hc]

theorem isDigit_ne_slash {c : Char} (h : c.isDigit = true) : c ≠ '/' := by
  intro he
  subst he
  simp [Char.isDigit] at h

theorem replaceSlashDash_append (a b : Str) :
    replaceSlashDash (a ++ b) = replaceSlashDash a ++ replaceSlashDash b := by
  simp [replaceSlashDash]

theorem replaceSlashDash_cons (c : Char) (s : Str) :
    replaceSlashDash (c :: s) = (if c = '/' then '-' else c) :: replaceSlashDash s := rfl

theorem replaceSlashDash_eq_self {a : Str} (h : ∀ c ∈ a, c ≠ '/') :
    replaceSlashDash a = a := by
  unfold replaceSlashDash
  have he : List.map (fun c => if c = '/' then '-' else c) a = List.map id a :=
    List.map_congr_left (fun c hc => if_neg (h c hc))
  rw [he, List.map_id]

theorem removeSlashes_append (a b : Str) :
    removeSlashes (a ++ b) = removeSlashes a ++ removeSlashes b := by
  simp [removeSlashes]

theorem removeSlashes_cons (c : Char) (s : Str) :
    removeSlashes (c :: s) =
      if c = '/' then removeSlashes s else c :: removeSlashes s := by
  by_cases hc : c = '/' <;> simp [removeSlashes, List.filter_cons, hc]

theorem removeSlashes_eq_self {a : Str} (h : ∀ c ∈ a, c ≠ '/') :
    removeSlashes a = a := by
  unfold removeSlashes
  rw [List.filter_eq_self.mpr]
  intro c hc
  simpa using h c hc

theorem toLowerStr_cons (c : Char) (s : Str) :
    toLowerStr (c :: s) = c.toLower :: toLowerStr s := rfl

theorem toLowerStr_eq_self_of_digits {a : Str} (h : ∀ c ∈ a, c.isDigit = true) :
    toLowerStr a = a := by
  unfold toLowerStr
  have he : List.map Char.toLower a = List.map id a :=
    List.map_congr_left (fun c hc => toLower_eq_self_of_isDigit (h c hc))
  rw [he, List.map_id]

theorem toLowerStr_sep_triple {x y z : Str} (c : Char)
    (hx : toLowerStr x = x) (hy : toLowerStr y = y) (hz : toLowerStr z = z)
    (hc : c.toLower = c) :
    toLowerStr (x ++ (c :: (y ++ (c :: z)))) = x ++ (c :: (y ++ (c :: z))) := by
  rw [toLowerStr_append, toLowerStr_cons, toLowerStr_append, toLowerStr_cons,
    hx, hy, hz, hc]

theorem toLowerStr_cat_triple {x y z : Str}
    (hx : toLowerStr x = x) (hy : toLowerStr y = y) (hz : toLowerStr z = z) :
    toLowerStr (x ++ (y ++ z)) = x ++ (y ++ z) := by
  rw [toLowerStr_append, toLowerStr_append, hx, hy, hz]

theorem dateFormats_ddmmyyyy {dd mm yyyy : Str}
    (hd : ∀ c ∈ dd, c.isDigit = true) (hm : ∀ c ∈ mm, c.isDigit = true)
    (hy : ∀ c ∈ yyyy, c.isDigit = true) :
    dateFormats (dd ++ ('/' :: (mm ++ ('/' :: yyyy)))) =
      [dd ++ ('/' :: (mm ++ ('/' :: yyyy))),
       dd ++ ('-' :: (mm ++ ('-' :: yyyy))),
       yyyy ++ ('-' :: (mm ++ ('-' :: dd))),
       yyyy ++ ('/' :: (mm ++ ('/' :: dd))),
       dd ++ (mm ++ yyyy),
       yyyy ++ (mm ++ dd)] := by
  have hd' : ∀ c ∈ dd, c ≠ '/' := fun c hc => isDigit_ne_slash (hd c hc)
  have hm' : ∀ c ∈ mm, c ≠ '/' := fun c hc => isDigit_ne_slash (hm c hc)
  have hy' : ∀ c ∈ yyyy, c ≠ '/' := fun c hc => isDigit_ne_slash (hy c hc)
  have hsplit : splitOnSlash (dd ++ ('/' :: (mm ++ ('/' :: yyyy)))) = [dd, mm, yyyy] := by
    rw [splitOnSlash_append hd', splitOnSlash_append hm', splitOnSlash_no_slash hy']
  have hrepl : replaceSlashDash (dd ++ ('/' :: (mm ++ ('/' :: yyyy)))) =
      dd ++ ('-' :: (mm ++ ('-' :: yyyy))) := by
    simp [replaceSlashDash_append, replaceSlashDash_cons,
      replaceSlashDash_eq_self hd', replaceSlashDash_eq_self hm',
      replaceSlashDash_eq_self hy']
  have hrem : removeSlashes (dd ++ ('/' :: (mm ++ ('/' :: yyyy)))) =
      dd ++ (mm ++ yyyy) := by
    simp [removeSlashes_append, removeSlashes_cons,
      removeSlashes_eq_self hd', removeSlashes_eq_self hm',
      removeSlashes_eq_self hy']
  unfold dateFormats
  rw [hsplit, hrepl, hrem]
  simp [joinWith]

/-- C4: the DOB matcher on the concrete date 15/06/1995 succeeds exactly
when the corpus contains one of the six literal representations, and on
every DD/MM/YYYY digit string it expands the date into exactly those six
representations and searches each as a substring of the corpus. -/
theorem C4_dob_formats :
    (∀ corpus : Str,
      matchDOB corpus ("15/06/1995".data) = true ↔
        (jsIncludes corpus ("15/06/1995".data) = true ∨
         jsIncludes corpus ("15-06-1995".data) = true ∨
         jsIncludes corpus ("1995-06-15".data) = true ∨
         jsIncludes corpus ("1995/06/15".data) = true ∨
         jsIncludes corpus ("15061995".data) = true ∨
         jsIncludes corpus ("19950615".data) = true))
    ∧ (∀ (corpus dd mm yyyy : Str),
        dd.length = 2 → mm.length = 2 → yyyy.length = 4 →
        (∀ c ∈ dd, c.isDigit = true) → (∀ c ∈ mm, c.isDigit = true) →
        (∀ c ∈ yyyy, c.isDigit = true) →
        dateFormats (dd ++ ('/' :: (mm ++ ('/' :: yyyy)))) =
          [dd ++ ('/' :: (mm ++ ('/' :: yyyy))),
           dd ++ ('-' :: (mm ++ ('-' :: yyyy))),
           yyyy ++ ('-' :: (mm ++ ('-' :: dd))),
           yyyy ++ ('/' :: (mm ++ ('/' :: dd))),
           dd ++ (mm ++ yyyy),
           yyyy ++ (mm ++ dd)]
        ∧ (matchDOB corpus (dd ++ ('/' :: (mm ++ ('/' :: yyyy)))) = true ↔
            (jsIncludes corpus (dd ++ ('/' :: (mm ++ ('/' :: yyyy)))) = true ∨
             jsIncludes corpus (dd ++ ('-' :: (mm ++ ('-' :: yyyy)))) = true ∨
             jsIncludes corpus (yyyy ++ ('-' :: (mm ++ ('-' :: dd)))) = true ∨
             jsIncludes corpus (yyyy ++ ('/' :: (mm ++ ('/' :: dd)))) = true ∨
             jsIncludes corpus (dd ++ (mm ++ yyyy)) = true ∨
             jsIncludes corpus (yyyy ++ (mm ++ dd)) = true))) := by
  have hgen : ∀ (corpus dd mm yyyy : Str),
      (∀ c ∈ dd, c.isDigit = true) → (∀ c ∈ mm, c.isDigit = true) →
      (∀ c ∈ yyyy, c.isDigit = true) →
      (matchDOB corpus (dd ++ ('/' :: (mm ++ ('/' :: yyyy)))) = true ↔
        (jsIncludes corpus (dd ++ ('/' :: (mm ++ ('/' :: yyyy)))) = true ∨
         jsIncludes corpus (dd ++ ('-' :: (mm ++ ('-' :: yyyy)))) = true ∨
         jsIncludes corpus (yyyy ++ ('-' :: (mm ++ ('-' :: dd)))) = true ∨
         jsIncludes corpus (yyyy ++ ('/' :: (mm ++ ('/' :: dd)))) = true ∨
         jsIncludes corpus (dd ++ (mm ++ yyyy)) = true ∨
         jsIncludes corpus (yyyy ++ (mm ++ dd)) = true)) := by
    intro corpus dd mm yyyy hd hm hy
    have hld : toLowerStr dd = dd := toLowerStr_eq_self_of_digits hd
    have hlm : toLowerStr mm = mm := toLowerStr_eq_self_of_digits hm
    have hly : toLowerStr yyyy = yyyy := toLowerStr_eq_self_of_digits hy
    have hsl : Char.toLower '/' = '/' := rfl
    have hda : Char.toLower '-' = '-' := rfl
    unfold matchDOB
    rw [dateFormats_ddmmyyyy hd hm hy]
    simp only [List.any_cons, List.any_nil,
      toLowerStr_sep_triple '/' hld hlm hly hsl,
      toLowerStr_sep_triple '-' hld hlm hly hda,
      toLowerStr_sep_triple '-' hly hlm hld hda,
      toLowerStr_sep_triple '/' hly hlm hld hsl,
      toLowerStr_cat_triple hld hlm hly,
      toLowerStr_cat_triple hly hlm hld,
      Bool.or_eq_true, Bool.or_false]
  constructor
  · intro corpus
    have h := hgen corpus ("15".data) ("06".data) ("1995".data)
      (by decide) (by decide) (by decide)
    simpa using h
  · intro corpus dd mm yyyy _ _ _ hd hm hy
    exact ⟨dateFormats_ddmmyyyy hd hm hy, hgen corpus dd mm yyyy hd hm hy⟩

/-- C4 witness: a corpus containing only the compact YYYYMMDD
representation 19950615 is matched for the input date 15/06/1995. -/
theorem C4_dob_formats_witness :
    matchDOB ("dob 19950615 x".data) ("15/06/1995".data) = true :=
  (C4_dob_formats.1 ("dob 19950615 x".data)).mpr
    (Or.inr (Or.inr (Or.inr (Or.inr (Or.inr (by decide))))))

/-- C1 (code bug): a request with the aadhaar spelling passes the
document-type gate, the pipeline records isDOBMatched = some false, yet
isVerification is true, because determineVerificationStatus
special-cases only the spellings aadhar and passport; with the aadhar
spelling the same flags yield false. The claim, the spec and the README
verification rules all require isVerification to be false here. -/
theorem C1_verdict_ignores_dob_for_aadhaar_spelling :
    (verifyIdentity
      ⟨.ok "photo.jpg", [some "id0.jpg"],
       .ok ("unique identification authority john doe 123456789012".data),
       .ok ⟨true, 90⟩⟩
      ⟨"John Doe".data, some ("15/06/1995".data), some ("1234 5678 9012".data),
       "aadhaar"⟩).result
      = .ok (.full ⟨true, true, some false, some true, some true, true, 90, true,
          "Verification complete"⟩)
    ∧ determineVerificationStatus true true (some false) (some true) true "aadhar"
      = false :=
  ⟨by decide, by decide⟩

/-- C2 (code bug): with the aadhaar spelling and both dob and
identityCardNumber absent, the pipeline does set both matched flags to
some false as the claim states, but still returns isVerification = true,
because determineVerificationStatus ignores the flags for this spelling;
the claim requires isVerification to be false. -/
theorem C2_missing_fields_verdict_not_false :
    (verifyIdentity
      ⟨.ok "photo.jpg", [some "id0.jpg"],
       .ok ("unique identification authority john doe".data),
       .ok ⟨true, 90⟩⟩
      ⟨"John Doe".data, none, none, "aadhaar"⟩).result
      = .ok (.full ⟨true, true, some false, some false, some false, true, 90, true,
          "Verification complete"⟩) := by
  decide

/-- C8 (code bug): when the photo download fails while an identity
download succeeds, the pipeline rethrows before downloadedFiles is
assigned, so the finally block sees an empty list and the successfully
downloaded identity file is never deleted: createdFiles holds the
identity file while deletedFiles is empty on this exception exit path. -/
theorem C8_cleanup_leak_on_photo_failure :
    verifyIdentity
      ⟨.error "Failed to download file from S3: NoSuchKey",
       [some "files/s3_file_0.jpg"], .ok [], .ok ⟨false, 0⟩⟩
      ⟨"John Doe".data, none, none, "other"⟩
      = ⟨.error "Failed to download file from S3: NoSuchKey",
         ["files/s3_file_0.jpg"], []⟩ := by
  decide

/-- C9 (code bug): with the aadhaar spelling a failed DOB match is left
out of the message, which comes back as Verification complete, because
buildMessage special-cases only the spellings aadhar and passport; with
the aadhar spelling the same flags produce the DOB-did-not-match
message the claim requires. -/
theorem C9_message_ignores_dob_for_aadhaar_spelling :
    buildMessage true (some false) (some true) true "aadhaar" = "Verification complete"
    ∧ buildMessage true (some false) (some true) true "aadhar" =
        "DOB did not match, but verification continued" :=
  ⟨by decide, by decide⟩

end DocVerify
